import Mathlib

/-!
Verification development for the Altrii Recovery MDM server
(mdm/server.js, class AltriiMDMServer).

The JavaScript source is shallowly embedded: the in-memory Maps
(deviceSessions, pendingCommands, enrollmentCodes) and the database
tables touched by the handlers become association lists inside one
state structure, and each handler becomes a pure state-transition
function.  Random UUID generation is threaded in as explicit string
parameters, and wall-clock time as an explicit Nat parameter.
-/

namespace Altrii

/-- Association-list lookup, mirroring JavaScript Map.get. -/
def lookupMap {α : Type} (m : List (String × α)) (k : String) : Option α :=
  match m with
  | [] => none
  | (k', v) :: rest => if k' = k then some v else lookupMap rest k

/-- Association-list update, mirroring JavaScript Map.set
(replaces the binding if present, else appends). -/
def setMap {α : Type} (m : List (String × α)) (k : String) (v : α) :
    List (String × α) :=
  match m with
  | [] => [(k, v)]
  | (k', v') :: rest =>
      if k' = k then (k, v) :: rest else (k', v') :: setMap rest k v

/-- Association-list removal, mirroring JavaScript Map.delete. -/
def eraseMap {α : Type} (m : List (String × α)) (k : String) :
    List (String × α) :=
  match m with
  | [] => []
  | (k', v') :: rest =>
      if k' = k then eraseMap rest k else (k', v') :: eraseMap rest k

/-- Whether the character list p is a prefix of s (Boolean). -/
def charsHavePre : List Char → List Char → Bool
  | [], _ => true
  | _ :: _, [] => false
  | a :: as, b :: bs => a == b && charsHavePre as bs

/-- Whether p occurs as a contiguous sublist of s; model of JavaScript
String.prototype.includes over the decoded character lists. -/
def charsContain (p : List Char) : List Char → Bool
  | [] => p.isEmpty
  | c :: rest => charsHavePre p (c :: rest) || charsContain p rest

/-- Model of JavaScript domain.includes(pat). -/
def strContains (s pat : String) : Bool :=
  charsContain pat.data s.data

/-- Blocking-settings value object supplied by the policy store
(the settings argument of compileBlockedDomains /
buildSupervisionProfile in mdm/server.js). -/
structure Settings where
  block_adult_content : Bool
  block_gambling : Bool
  block_social_media : Bool
  block_gaming : Bool
  block_news : Bool
  block_entertainment : Bool
  block_shopping : Bool
  block_dating : Bool
  custom_blocked_domains : List String
  customAllowedDomains : List String
  additionalBlockedApps : List String
  allowJavaScript : Option Bool
  deriving DecidableEq, Repr

/-- The category keys pushed by compileBlockedDomains, in source order. -/
def categoriesOf (s : Settings) : List String :=
  (if s.block_adult_content then ["adult"] else []) ++
  (if s.block_gambling then ["gambling"] else []) ++
  (if s.block_social_media then ["social_media"] else []) ++
  (if s.block_gaming then ["gaming"] else []) ++
  (if s.block_news then ["news"] else []) ++
  (if s.block_entertainment then ["entertainment"] else []) ++
  (if s.block_shopping then ["shopping"] else []) ++
  (if s.block_dating then ["dating"] else [])

/-- First-occurrence deduplication with an accumulator of already-seen
elements. -/
def dedupFirstAux (seen : List String) : List String → List String
  | [] => []
  | d :: rest =>
      if seen.contains d then dedupFirstAux seen rest
      else d :: dedupFirstAux (d :: seen) rest

/-- First-occurrence deduplication, mirroring [...new Set(domains)]. -/
def dedupFirst (l : List String) : List String :=
  dedupFirstAux [] l

/-- AltriiMDMServer.compileBlockedDomains: category domains from the
blocked_domains table (rows (category, domain)) plus the custom blocked
domains, deduplicated, minus every domain containing the substring
"altriirecovery.com". -/
def compileBlockedDomains (blockedDomainsTable : List (String × String))
    (settings : Settings) : List String :=
  let categories := categoriesOf settings
  let domains :=
    (blockedDomainsTable.filter
        (fun cd => categories.contains cd.1)).map (fun cd => cd.2)
      ++ settings.custom_blocked_domains
  (dedupFirst domains).filter
    (fun domain => !(strContains domain "altriirecovery.com"))

/-- AltriiMDMServer.getBaselinePermittedURLs: the fixed always-allow
set (operator service domains, Apple infrastructure, emergency and
crisis services). -/
def getBaselinePermittedURLs : List String :=
  [ "apple.com",
    "icloud.com",
    "icloud-content.com",
    "cdn-apple.com",
    "mzstatic.com",
    "altriirecovery.com",
    "www.altriirecovery.com",
    "app.altriirecovery.com",
    "api.altriirecovery.com",
    "emergency.gov",
    "911.gov",
    "suicidepreventionlifeline.org",
    "crisistextline.org" ]

/-- Server configuration fields consulted by the modelled handlers. -/
structure MDMConfig where
  serverUrl : String
  mdmTopic : String
  production : Bool
  /-- Whether this.apnProvider was initialized (APNS configured). -/
  apnsConfigured : Bool
  signingCertificate : Option String
  signingKey : Option String
  deriving DecidableEq, Repr

/-- The com.apple.mdm payload built by buildMDMPayload. -/
structure MDMPayload where
  payloadIdentifier : String
  serverURL : String
  checkInURL : String
  topic : String
  serverCapabilities : List String
  accessRights : Nat
  checkInFrequency : Nat
  useDevelopmentAPNS : Bool
  deriving DecidableEq, Repr

/-- AltriiMDMServer.buildMDMPayload. -/
def buildMDMPayload (config : MDMConfig) (deviceId : String) : MDMPayload :=
  { payloadIdentifier := "com.altriirecovery.mdm." ++ deviceId,
    serverURL := config.serverUrl ++ "/mdm/server/" ++ deviceId,
    checkInURL := config.serverUrl ++ "/mdm/checkin/" ++ deviceId,
    topic := config.mdmTopic,
    serverCapabilities :=
      [ "com.apple.mdm.per-app-vpn",
        "com.apple.mdm.device-lock",
        "com.apple.mdm.restriction-queries" ],
    accessRights := 8191,
    checkInFrequency := 15,
    useDevelopmentAPNS := !config.production }

/-- The com.apple.webcontent-filter payload built by
buildContentFilterPayload. -/
structure ContentFilterPayload where
  payloadIdentifier : String
  filterType : String
  autoFilterEnabled : Bool
  filterBrowsers : Bool
  filterSockets : Bool
  blacklistedURLs : List String
  whitelistedURLs : List String
  /-- Present only in web-only mode. -/
  filterDataProviderBundleIdentifier : Option String
  filterPackets : Option Bool
  filterGrade : Option String
  permittedURLs : List String
  deriving DecidableEq, Repr

/-- AltriiMDMServer.buildContentFilterPayload. -/
def buildContentFilterPayload (blockedDomainsTable : List (String × String))
    (deviceId : String) (settings : Settings) (isWebOnly : Bool) :
    ContentFilterPayload :=
  let blockedDomains := compileBlockedDomains blockedDomainsTable settings
  { payloadIdentifier := "com.altriirecovery.contentfilter." ++ deviceId,
    filterType := "BuiltIn",
    autoFilterEnabled := true,
    filterBrowsers := true,
    filterSockets := true,
    blacklistedURLs := blockedDomains,
    whitelistedURLs :=
      [ "altriirecovery.com",
        "www.altriirecovery.com",
        "app.altriirecovery.com",
        "api.altriirecovery.com" ] ++ settings.customAllowedDomains,
    filterDataProviderBundleIdentifier :=
      if isWebOnly then some "com.apple.Safari" else none,
    filterPackets := if isWebOnly then some true else none,
    filterGrade := if isWebOnly then some "firewall" else none,
    permittedURLs := getBaselinePermittedURLs }

/-- The com.apple.applicationaccess payload built by
buildRestrictionsPayload; absent keys are none. -/
structure RestrictionsPayload where
  payloadIdentifier : String
  allowAppInstallation : Option Bool := none
  allowUIAppInstallation : Option Bool := none
  allowAppRemoval : Option Bool := none
  allowInAppPurchases : Option Bool := none
  allowAppClips : Option Bool := none
  allowAutomaticAppDownloads : Option Bool := none
  allowVPNCreation : Option Bool := none
  allowEraseContentAndSettings : Option Bool := none
  allowUIConfigurationProfileInstallation : Option Bool := none
  allowPasscodeModification : Option Bool := none
  safariAllowJavaScript : Option Bool := none
  safariAllowPopups : Option Bool := none
  safariAllowAutoFill : Option Bool := none
  safariForceFraudWarning : Option Bool := none
  blacklistedAppBundleIDs : Option (List String) := none
  deriving DecidableEq, Repr

/-- The level-2 circumvention-app denylist literal. -/
def level2BlockedApps : List String :=
  [ "com.opera.OperaMini",
    "com.opera.Opera-Touch",
    "org.torproject.ios",
    "com.tunnelbear.ios.TunnelBear",
    "com.nordvpn.ios",
    "com.expressvpn.ExpressVPN",
    "com.protonvpn.ios",
    "com.cloudflare.onedotonedotonedotone" ]

/-- The level-3 denylist literal (adds all third-party browsers). -/
def level3BlockedApps : List String :=
  level2BlockedApps ++
  [ "com.brave.ios.browser",
    "com.mozilla.ios.Firefox",
    "com.mozilla.ios.Focus",
    "com.google.chrome.ios",
    "com.microsoft.msedge",
    "com.duckduckgo.mobile.ios",
    "com.alohabrowser.alohabrowser" ]

/-- AltriiMDMServer.buildRestrictionsPayload. -/
def buildRestrictionsPayload (deviceId : String) (settings : Settings)
    (securityLevel : Nat) : RestrictionsPayload :=
  let base : RestrictionsPayload :=
    { payloadIdentifier := "com.altriirecovery.restrictions." ++ deviceId }
  if securityLevel = 2 then
    { base with
      allowAppInstallation := some true,
      allowUIAppInstallation := some true,
      allowAppRemoval := some false,
      allowInAppPurchases := some false,
      allowVPNCreation := some false,
      blacklistedAppBundleIDs :=
        some (level2BlockedApps ++ settings.additionalBlockedApps) }
  else if securityLevel ≥ 3 then
    { base with
      allowAppInstallation := some false,
      allowUIAppInstallation := some false,
      allowAppClips := some false,
      allowAutomaticAppDownloads := some false,
      allowInAppPurchases := some false,
      allowAppRemoval := some false,
      allowEraseContentAndSettings := some false,
      allowUIConfigurationProfileInstallation := some false,
      allowVPNCreation := some false,
      allowPasscodeModification := some false,
      safariAllowJavaScript := some (settings.allowJavaScript ≠ some false),
      safariAllowPopups := some false,
      safariAllowAutoFill := some false,
      safariForceFraudWarning := some true,
      blacklistedAppBundleIDs :=
        some (level3BlockedApps ++ settings.additionalBlockedApps) }
  else
    base

/-- The com.apple.security payload built by buildSecurityPayload;
fields absent until the level-gated Object.assign calls set them. -/
structure SecurityPayload where
  payloadIdentifier : String
  requireAlphanumeric : Option Bool := none
  minLength : Option Nat := none
  maxFailedAttempts : Option Nat := none
  maxInactivity : Option Nat := none
  maxPINAgeInDays : Option Nat := none
  allowSimple : Option Bool := none
  forcePIN : Option Bool := none
  requireComplexPasscode : Option Bool := none
  minComplexChars : Option Nat := none
  allowPasscodeModification : Option Bool := none
  allowFingerprintForUnlock : Option Bool := none
  allowAutoUnlock : Option Bool := none
  deriving DecidableEq, Repr

/-- AltriiMDMServer.buildSecurityPayload. -/
def buildSecurityPayload (deviceId : String) (securityLevel : Nat) :
    SecurityPayload :=
  let payload : SecurityPayload :=
    { payloadIdentifier := "com.altriirecovery.security." ++ deviceId }
  let payload :=
    if securityLevel ≥ 2 then
      { payload with
        requireAlphanumeric := some true,
        minLength := some 6,
        maxFailedAttempts := some 10,
        maxInactivity := some 300,
        maxPINAgeInDays := some 90,
        allowSimple := some false,
        forcePIN := some true }
    else payload
  if securityLevel ≥ 3 then
    { payload with
      requireComplexPasscode := some true,
      minComplexChars := some 2,
      maxFailedAttempts := some 5,
      allowPasscodeModification := some false,
      allowFingerprintForUnlock := some true,
      allowAutoUnlock := some false }
  else payload

/-- One entry of the profile's PayloadContent array. -/
inductive Payload where
  | mdm (p : MDMPayload)
  | contentFilter (p : ContentFilterPayload)
  | restrictions (p : RestrictionsPayload)
  | security (p : SecurityPayload)
  deriving DecidableEq, Repr

def Payload.restrictionsOf : Payload → Option RestrictionsPayload
  | .restrictions p => some p
  | _ => none

def Payload.securityOf : Payload → Option SecurityPayload
  | .security p => some p
  | _ => none

def Payload.contentFilterOf : Payload → Option ContentFilterPayload
  | .contentFilter p => some p
  | _ => none

/-- The top-level configuration profile document. -/
structure SupervisionProfile where
  payloadIdentifier : String
  payloadUUID : String
  payloadDisplayName : String
  payloadRemovalDisallowed : Bool
  payloadContent : List Payload
  deriving DecidableEq, Repr

/-- AltriiMDMServer.buildSupervisionProfile: MDM payload, content
filter, then restrictions and security payloads only when
securityLevel is at least 2. -/
def buildSupervisionProfile (config : MDMConfig)
    (blockedDomainsTable : List (String × String)) (deviceId : String)
    (profileUUID : String) (settings : Settings) (securityLevel : Nat)
    (isWebOnly : Bool) : SupervisionProfile :=
  { payloadIdentifier := "com.altriirecovery.supervision." ++ deviceId,
    payloadUUID := profileUUID,
    payloadDisplayName := "Altrii Recovery - Maximum Protection",
    payloadRemovalDisallowed := securityLevel ≥ 3,
    payloadContent :=
      [ Payload.mdm (buildMDMPayload config deviceId),
        Payload.contentFilter
          (buildContentFilterPayload blockedDomainsTable deviceId settings
            isWebOnly) ] ++
      (if securityLevel ≥ 2 then
        [Payload.restrictions
          (buildRestrictionsPayload deviceId settings securityLevel)]
      else []) ++
      (if securityLevel ≥ 2 then
        [Payload.security (buildSecurityPayload deviceId securityLevel)]
      else []) }

/-- A serialized profile: plist.build output of the document. -/
def plistBuild (p : SupervisionProfile) : String :=
  "plist:" ++ p.payloadIdentifier ++ ":" ++ p.payloadUUID ++ ":" ++
    toString p.payloadContent.length

/-- Result of signProfile: either the PKCS7 DER output or the plain
unsigned plist serialization. -/
inductive SignedOutput where
  | unsigned (plistData : String)
  | signed (der : String)
  deriving DecidableEq, Repr

/-- Stand-in for the node-forge PKCS7 signing step (external
capability; the claims only distinguish signed from unsigned). -/
def pkcs7Sign (cert key plistData : String) : String :=
  "pkcs7:" ++ cert ++ ":" ++ key ++ ":" ++ plistData

/-- AltriiMDMServer.signProfile: serializes the profile and returns it
unsigned whenever no signing certificate or key is configured. -/
def signProfile (config : MDMConfig) (profile : SupervisionProfile) :
    SignedOutput :=
  let plistData := plistBuild profile
  match config.signingCertificate, config.signingKey with
  | some cert, some key => SignedOutput.signed (pkcs7Sign cert key plistData)
  | some _, none => SignedOutput.unsigned plistData
  | none, _ => SignedOutput.unsigned plistData

/-- A row of the device_profiles table (fields the handlers touch). -/
structure DeviceProfileRow where
  id : String
  profileUUID : String
  mdmEnrolled : Bool
  supervisionLevel : Nat
  deriving DecidableEq, Repr

/-- An in-memory this.deviceSessions entry.  Authenticate stores the
fingerprint only; push fields appear when TokenUpdate mutates the
entry.  (lastCheckIn wall-clock noise is not modelled.) -/
structure DeviceSession where
  deviceId : String
  udid : String
  serialNumber : String
  model : String
  osVersion : String
  buildVersion : String
  supervised : Bool
  pushToken : Option String := none
  pushMagic : Option String := none
  unlockToken : Option String := none
  deriving DecidableEq, Repr

/-- A row of the mdm_device_sessions table, keyed by internal device
id in the state. -/
structure DbSessionRow where
  udid : String
  serialNumber : String
  model : String
  osVersion : String
  buildVersion : String
  supervised : Bool
  pushToken : Option String := none
  pushMagic : Option String := none
  unlockToken : Option String := none
  deriving DecidableEq, Repr

/-- The command plist object produced by buildCommand
(CommandUUID plus the Command dictionary). -/
structure Cmd where
  commandUUID : String
  requestType : String
  params : List (String × String)
  deriving DecidableEq, Repr

/-- JavaScript property access parameters.k on the request body,
undefined rendered as a marker string. -/
def jsField (parameters : List (String × String)) (k : String) : String :=
  (lookupMap parameters k).getD "undefined"

/-- AltriiMDMServer.buildCommand (uuidv4 passed in explicitly). -/
def buildCommand (uuid cmdType : String)
    (parameters : List (String × String)) : Cmd :=
  { commandUUID := uuid,
    requestType := cmdType,
    params :=
      match cmdType with
      | "ProfileList" => []
      | "SecurityInfo" => []
      | "DeviceInformation" => []
      | "Restrictions" => []
      | "InstallProfile" => [("Payload", jsField parameters "profileData")]
      | "RemoveProfile" =>
          [("Identifier", jsField parameters "profileIdentifier")]
      | "Settings" => [("Settings", jsField parameters "settings")]
      | "DeviceLock" =>
          [("PIN", jsField parameters "pin"),
           ("Message", jsField parameters "message")]
      | _ => parameters }

/-- A row of the mdm_commands table, in created_at order within the
state's list. -/
structure CmdRec where
  deviceId : String
  commandUUID : String
  commandType : String
  status : String
  command : Cmd
  responseData : Option String := none
  deriving DecidableEq, Repr

/-- An in-memory this.enrollmentCodes entry. -/
structure Enrollment where
  profileData : String
  deviceId : String
  userId : String
  profileUUID : String
  expiresAt : Nat
  deriving DecidableEq, Repr

/-- Device-reported security information (SecurityInfo response). -/
structure SecInfo where
  isSupervised : Bool
  passcodePresent : Bool
  deriving DecidableEq, Repr

/-- One device-reported installed application. -/
structure AppInfo where
  bundleIdentifier : String
  name : Option String
  version : String
  isSystemApp : Bool
  deriving DecidableEq, Repr

/-- Device-reported restriction flags checked by processRestrictions;
a key the device did not report is none. -/
structure RestrictionsReport where
  allowVPNCreation : Option Bool
  allowAppInstallation : Option Bool
  allowEraseContentAndSettings : Option Bool
  deriving DecidableEq, Repr

/-- A decoded command-response plist (the fields the handler reads;
the typed payload fields are consulted only for the matching
RequestType). -/
structure CmdResponse where
  commandUUID : String
  status : String
  requestType : String
  profileList : List String
  securityInfo : SecInfo
  appList : List AppInfo
  restrictions : RestrictionsReport
  deriving DecidableEq, Repr

/-- A row of the supervision_profiles table. -/
structure SupProfileRow where
  deviceId : String
  profileUUID : String
  profileIdentifier : String
  securityLevel : Nat
  installed : Bool
  deriving DecidableEq, Repr

/-- A row of the device_app_inventory table. -/
structure AppInvRow where
  deviceId : String
  bundleIdentifier : String
  appName : String
  version : String
  isSystemApp : Bool
  isBlocked : Bool
  deriving DecidableEq, Repr

/-- The whole server state: the three in-memory Maps of
AltriiMDMServer plus the database tables the handlers touch, plus the
log of notifications actually handed to the APNS provider. -/
structure SrvState where
  deviceProfiles : List DeviceProfileRow
  deviceSessions : List (String × DeviceSession)
  dbSessions : List (String × DbSessionRow)
  mdmCommands : List CmdRec
  pendingCommands : List (String × List Cmd)
  enrollmentCodes : List (String × Enrollment)
  supervisionEnrollments : List (String × String)
  supervisionProfiles : List SupProfileRow
  appInventory : List AppInvRow
  deviceRestrictions : List (String × RestrictionsReport)
  blockedAppsDb : List String
  events : List (String × String)
  pushLog : List (String × String × Option String)
  deriving DecidableEq, Repr

/-- SELECT * FROM device_profiles WHERE profile_uuid = deviceId
(first row). -/
def findDevice (st : SrvState) (deviceId : String) :
    Option DeviceProfileRow :=
  st.deviceProfiles.find? (fun r => r.profileUUID == deviceId)

/-- AltriiMDMServer.sendPushNotification: hands a notification to the
APNS provider only when one was configured. -/
def sendPushNotification (config : MDMConfig) (st : SrvState)
    (deviceId pushToken : String) (pushMagic : Option String) : SrvState :=
  if config.apnsConfigured then
    { st with pushLog := st.pushLog ++ [(deviceId, pushToken, pushMagic)] }
  else st

/-- AltriiMDMServer.logDeviceEvent: INSERT INTO mdm_device_events. -/
def logDeviceEvent (st : SrvState) (deviceId eventType : String) :
    SrvState :=
  { st with events := st.events ++ [(deviceId, eventType)] }

/-- The Authenticate check-in message fields the handler reads. -/
structure AuthData where
  udid : String
  serialNumber : String
  model : String
  osVersion : String
  buildVersion : String
  isSupervised : Bool
  deriving DecidableEq, Repr

/-- AltriiMDMServer.handleAuthenticate: resolves the device record,
upserts the durable session row, overwrites the in-memory session
(with no push token yet) and logs an authenticated event.  Returns
the HTTP status. -/
def handleAuthenticate (st : SrvState) (deviceId : String)
    (data : AuthData) : Nat × SrvState :=
  match findDevice st deviceId with
  | none => (401, st)
  | some deviceRecord =>
    let dbSessions' :=
      match lookupMap st.dbSessions deviceRecord.id with
      | some old =>
          setMap st.dbSessions deviceRecord.id
            { old with
              udid := data.udid, serialNumber := data.serialNumber,
              model := data.model, osVersion := data.osVersion,
              buildVersion := data.buildVersion,
              supervised := data.isSupervised }
      | none =>
          setMap st.dbSessions deviceRecord.id
            { udid := data.udid, serialNumber := data.serialNumber,
              model := data.model, osVersion := data.osVersion,
              buildVersion := data.buildVersion,
              supervised := data.isSupervised }
    let session : DeviceSession :=
      { deviceId := deviceRecord.id, udid := data.udid,
        serialNumber := data.serialNumber, model := data.model,
        osVersion := data.osVersion, buildVersion := data.buildVersion,
        supervised := data.isSupervised }
    let st :=
      { st with
        dbSessions := dbSessions',
        deviceSessions := setMap st.deviceSessions deviceId session }
    let st := logDeviceEvent st deviceRecord.id "authenticated"
    (200, st)

/-- First check memory, then the mdm_commands table: model of
AltriiMDMServer.getPendingCommands. -/
def getPendingCommands (st : SrvState) (deviceId : String) : List Cmd :=
  let memoryCommands := (lookupMap st.pendingCommands deviceId).getD []
  if memoryCommands.length > 0 then memoryCommands
  else
    match findDevice st deviceId with
    | none => []
    | some dev =>
        (st.mdmCommands.filter
          (fun c => c.deviceId == dev.id && c.status == "pending")).map
          (fun c => c.command)

/-- AltriiMDMServer.getNextCommand. -/
def getNextCommand (st : SrvState) (deviceId : String) : Option Cmd :=
  (getPendingCommands st deviceId).head?

/-- The TokenUpdate check-in message fields the handler reads. -/
structure TokenUpdateData where
  token : String
  pushMagic : String
  unlockToken : Option String
  deriving DecidableEq, Repr

/-- AltriiMDMServer.handleTokenUpdate: requires an in-memory session,
writes the new push credentials to it and to the durable row, then
wakes the device iff it has pending commands. -/
def handleTokenUpdate (config : MDMConfig) (st : SrvState)
    (deviceId : String) (data : TokenUpdateData) : Nat × SrvState :=
  match lookupMap st.deviceSessions deviceId with
  | none => (401, st)
  | some session =>
    let session' :=
      { session with
        pushToken := some data.token, pushMagic := some data.pushMagic,
        unlockToken := data.unlockToken }
    let st :=
      { st with
        deviceSessions := setMap st.deviceSessions deviceId session' }
    let st :=
      { st with
        dbSessions :=
          match lookupMap st.dbSessions session.deviceId with
          | some old =>
              setMap st.dbSessions session.deviceId
                { old with
                  pushToken := some data.token,
                  pushMagic := some data.pushMagic,
                  unlockToken := data.unlockToken }
          | none => st.dbSessions }
    let commands := getPendingCommands st deviceId
    let st :=
      if commands.length > 0 then
        sendPushNotification config st deviceId data.token
          (some data.pushMagic)
      else st
    (200, st)

/-- AltriiMDMServer.handleCheckOut: succeeds immediately when no
session exists; otherwise removes the session everywhere, clears the
enrollment flag and supervision level, and logs an unenrolled
event. -/
def handleCheckOut (st : SrvState) (deviceId : String) : Nat × SrvState :=
  match lookupMap st.deviceSessions deviceId with
  | none => (200, st)
  | some session =>
    let st :=
      { st with deviceSessions := eraseMap st.deviceSessions deviceId }
    let st :=
      { st with
        deviceProfiles := st.deviceProfiles.map
          (fun (r : DeviceProfileRow) =>
            if r.id == session.deviceId then
              { r with mdmEnrolled := false, supervisionLevel := 0 }
            else r) }
    let st := { st with dbSessions := eraseMap st.dbSessions session.deviceId }
    let st := logDeviceEvent st session.deviceId "unenrolled"
    (200, st)

/-- The push block shared verbatim by sendCommand and verifyDevice:
wake the device iff an in-memory session with a push token exists. -/
def wakeIfPossible (config : MDMConfig) (st : SrvState)
    (deviceId : String) : SrvState :=
  match lookupMap st.deviceSessions deviceId with
  | some session =>
      match session.pushToken with
      | some token =>
          sendPushNotification config st deviceId token session.pushMagic
      | none => st
  | none => st

/-- Result of the operator sendCommand endpoint. -/
inductive SendCommandResult where
  | notFound
  | ok (commandUUID : String)
  deriving DecidableEq, Repr

/-- AltriiMDMServer.sendCommand: builds the command, persists it as
pending, appends it to the device's in-memory queue, and wakes the
device when a session with a push token exists. -/
def sendCommand (config : MDMConfig) (st : SrvState)
    (deviceId commandType : String) (parameters : List (String × String))
    (uuid : String) : SendCommandResult × SrvState :=
  let command := buildCommand uuid commandType parameters
  match findDevice st deviceId with
  | none => (SendCommandResult.notFound, st)
  | some dev =>
    let newRec : CmdRec :=
      { deviceId := dev.id, commandUUID := command.commandUUID,
        commandType := commandType, status := "pending",
        command := command }
    let st := { st with mdmCommands := st.mdmCommands ++ [newRec] }
    let deviceCommands := (lookupMap st.pendingCommands deviceId).getD []
    let st :=
      { st with
        pendingCommands :=
          setMap st.pendingCommands deviceId (deviceCommands ++ [command]) }
    let st := wakeIfPossible config st deviceId
    (SendCommandResult.ok command.commandUUID, st)

/-- AltriiMDMServer.verifyDevice: enqueues the four reconciliation
commands (uuids passed in) and wakes the device when possible. -/
def verifyDevice (config : MDMConfig) (st : SrvState) (deviceId : String)
    (u1 u2 u3 u4 : String) : Bool × SrvState :=
  let commands :=
    [ buildCommand u1 "ProfileList" [],
      buildCommand u2 "SecurityInfo" [],
      buildCommand u3 "Restrictions" [],
      buildCommand u4 "InstalledApplicationList" [] ]
  match findDevice st deviceId with
  | none => (false, st)
  | some dev =>
    let st :=
      { st with
        mdmCommands := st.mdmCommands ++ commands.map
          (fun (c : Cmd) =>
            ({ deviceId := dev.id, commandUUID := c.commandUUID,
               commandType := c.requestType, status := "pending",
               command := c } : CmdRec)) }
    let existingCommands := (lookupMap st.pendingCommands deviceId).getD []
    let st :=
      { st with
        pendingCommands :=
          setMap st.pendingCommands deviceId (existingCommands ++ commands) }
    let st := wakeIfPossible config st deviceId
    (true, st)

/-- Boolean startsWith over decoded characters. -/
def strStartsWith (s pre : String) : Bool :=
  charsHavePre pre.data s.data

/-- AltriiMDMServer.processProfileList reconciliation. -/
def processProfileList (st : SrvState) (internalId : String)
    (profiles : List String) : SrvState :=
  match profiles.find?
      (fun p => strStartsWith p "com.altriirecovery.supervision") with
  | none => st
  | some ident =>
    { st with
      supervisionProfiles := st.supervisionProfiles.map
        (fun r =>
          if r.deviceId == internalId && r.profileIdentifier == ident then
            { r with installed := true }
          else r),
      deviceProfiles := st.deviceProfiles.map
        (fun r =>
          if r.id == internalId then { r with mdmEnrolled := true } else r) }

/-- AltriiMDMServer.processSecurityInfo reconciliation. -/
def processSecurityInfo (st : SrvState) (internalId : String)
    (securityInfo : SecInfo) : SrvState :=
  let st :=
    { st with
      dbSessions :=
        match lookupMap st.dbSessions internalId with
        | some old =>
            setMap st.dbSessions internalId
              { old with supervised := securityInfo.isSupervised }
        | none => st.dbSessions }
  logDeviceEvent st internalId "security_info_updated"

/-- AltriiMDMServer.processAppList reconciliation. -/
def processAppList (st : SrvState) (internalId : String)
    (apps : List AppInfo) : SrvState :=
  let st :=
    { st with
      appInventory :=
        st.appInventory.filter (fun r => !(r.deviceId == internalId)) }
  let blockedBundleIds := st.blockedAppsDb
  let st :=
    { st with
      appInventory := st.appInventory ++ apps.map
        (fun a =>
          { deviceId := internalId,
            bundleIdentifier := a.bundleIdentifier,
            appName := a.name.getD a.bundleIdentifier,
            version := a.version,
            isSystemApp := a.isSystemApp,
            isBlocked := blockedBundleIds.contains a.bundleIdentifier }) }
  let prohibitedApps := apps.filter
    (fun a => blockedBundleIds.contains a.bundleIdentifier && !a.isSystemApp)
  if prohibitedApps.length > 0 then
    logDeviceEvent st internalId "prohibited_apps_detected"
  else st

/-- AltriiMDMServer.processRestrictions reconciliation. -/
def processRestrictions (st : SrvState) (internalId : String)
    (restrictions : RestrictionsReport) : SrvState :=
  let st :=
    { st with
      deviceRestrictions :=
        setMap st.deviceRestrictions internalId restrictions }
  match st.deviceProfiles.find? (fun p => p.id == internalId) with
  | none => st
  | some dev =>
    let level := dev.supervisionLevel
    let issues :=
      (if decide (2 ≤ level) &&
          !(restrictions.allowVPNCreation == some false) then
        ["VPN creation not blocked"] else []) ++
      (if decide (3 ≤ level) &&
          !(restrictions.allowAppInstallation == some false) then
        ["App installation not blocked"] else []) ++
      (if decide (3 ≤ level) &&
          !(restrictions.allowEraseContentAndSettings == some false) then
        ["Factory reset not blocked"] else [])
    if issues.length > 0 then
      logDeviceEvent st internalId "restriction_violations"
    else st

/-- The switch on RequestType run by processCommandResponse when the
device acknowledged the command ("Handle specific command types"). -/
def runReconciliation (st : SrvState) (internalId : String)
    (response : CmdResponse) : SrvState :=
  if response.status == "Acknowledged" then
    match response.requestType with
    | "ProfileList" =>
        processProfileList st internalId response.profileList
    | "SecurityInfo" =>
        processSecurityInfo st internalId response.securityInfo
    | "InstalledApplicationList" =>
        processAppList st internalId response.appList
    | "Restrictions" =>
        processRestrictions st internalId response.restrictions
    | _ => st
  else st

/-- AltriiMDMServer.processCommandResponse: drops the message when no
in-memory session exists; otherwise marks every command record with
the reported uuid completed or failed, logs a command_response event,
runs the typed reconciliation on acknowledgement, and removes the
matching command from the device's in-memory queue. -/
def processCommandResponse (st : SrvState) (deviceId : String)
    (response : CmdResponse) : SrvState :=
  match lookupMap st.deviceSessions deviceId with
  | none => st
  | some session =>
    let newStatus :=
      if response.status == "Acknowledged" then "completed" else "failed"
    let st :=
      { st with
        mdmCommands := st.mdmCommands.map
          (fun c =>
            if c.commandUUID == response.commandUUID then
              { c with status := newStatus,
                       responseData := some response.status }
            else c) }
    let st := logDeviceEvent st session.deviceId "command_response"
    let st := runReconciliation st session.deviceId response
    let deviceCommands := (lookupMap st.pendingCommands deviceId).getD []
    { st with
      pendingCommands :=
        setMap st.pendingCommands deviceId
          (deviceCommands.filter
            (fun cmd => !(cmd.commandUUID == response.commandUUID))) }

/-- AltriiMDMServer.handleCommand: processes the response, then
returns the next queued command (or nothing). -/
def handleCommand (st : SrvState) (deviceId : String)
    (response : CmdResponse) : Option Cmd × SrvState :=
  let st := processCommandResponse st deviceId response
  (getNextCommand st deviceId, st)

/-- Outcome of the enrollment-profile download endpoint. -/
inductive EnrollResult where
  | invalidCode
  | expired
  | ok (profileData : String)
  deriving DecidableEq, Repr

/-- The enrollment-code issuance step of generateSupervisionProfile
(lines storing this.enrollmentCodes), time passed in explicitly. -/
def issueEnrollmentCode (st : SrvState) (now : Nat)
    (code profileData deviceId userId profileUUID : String) : SrvState :=
  { st with
    enrollmentCodes :=
      setMap st.enrollmentCodes code
        { profileData := profileData, deviceId := deviceId,
          userId := userId, profileUUID := profileUUID,
          expiresAt := now + 24 * 60 * 60 * 1000 } }

/-- AltriiMDMServer.getEnrollmentProfile: 404 on unknown code, 410 and
eviction on an expired one; otherwise serves the profile bytes, logs a
profile_downloaded event and marks the enrollment row downloaded. -/
def getEnrollmentProfile (st : SrvState) (now : Nat) (code : String) :
    EnrollResult × SrvState :=
  match lookupMap st.enrollmentCodes code with
  | none => (EnrollResult.invalidCode, st)
  | some enrollment =>
    if enrollment.expiresAt < now then
      (EnrollResult.expired,
        { st with enrollmentCodes := eraseMap st.enrollmentCodes code })
    else
      let st := logDeviceEvent st enrollment.deviceId "profile_downloaded"
      let st :=
        { st with
          supervisionEnrollments :=
            setMap st.supervisionEnrollments code "downloaded" }
      (EnrollResult.ok enrollment.profileData, st)

/-! Replay of operator enqueues, used to state the FIFO property of the
command queue. -/

/-- One operator call to the sendCommand endpoint. -/
structure EnqOp where
  deviceId : String
  commandType : String
  parameters : List (String × String)
  uuid : String
  deriving DecidableEq, Repr

/-- Run a sequence of sendCommand calls, discarding the HTTP results. -/
def runSendCommands (config : MDMConfig) (st : SrvState) :
    List EnqOp → SrvState
  | [] => st
  | op :: rest =>
      runSendCommands config
        (sendCommand config st op.deviceId op.commandType op.parameters
          op.uuid).2 rest

/-- The commands a sequence of sendCommand calls enqueues for one
device (calls naming unknown devices are rejected with 404 and enqueue
nothing), in call order. -/
def enqueuedFor (profiles : List DeviceProfileRow) (ops : List EnqOp)
    (deviceId : String) : List Cmd :=
  (ops.filter
      (fun o => o.deviceId == deviceId &&
        (profiles.find? (fun r => r.profileUUID == o.deviceId)).isSome)).map
    (fun o => buildCommand o.uuid o.commandType o.parameters)

/-- The command_data values a sequence of sendCommand calls inserts as
pending rows for one internal device id, in insertion (created_at)
order. -/
def dbEnqueuedFor (profiles : List DeviceProfileRow) (ops : List EnqOp)
    (internalId : String) : List Cmd :=
  (ops.filter
      (fun o =>
        match profiles.find? (fun r => r.profileUUID == o.deviceId) with
        | some dev => dev.id == internalId
        | none => false)).map
    (fun o => buildCommand o.uuid o.commandType o.parameters)

/-! Concrete fixtures used by counterexamples and witnesses. -/

/-- A configuration with APNS available and no signing identity. -/
def cfg0 : MDMConfig :=
  { serverUrl := "https://mdm.example", mdmTopic := "com.altriirecovery.mdm",
    production := false, apnsConfigured := true,
    signingCertificate := none, signingKey := none }

/-- The all-empty server state. -/
def emptyState : SrvState :=
  { deviceProfiles := [], deviceSessions := [], dbSessions := [],
    mdmCommands := [], pendingCommands := [], enrollmentCodes := [],
    supervisionEnrollments := [], supervisionProfiles := [],
    appInventory := [], deviceRestrictions := [], blockedAppsDb := [],
    events := [], pushLog := [] }

/-- A registered device record. -/
def dev1 : DeviceProfileRow :=
  { id := "1", profileUUID := "D", mdmEnrolled := true,
    supervisionLevel := 2 }

/-- A live session for dev1, push token already supplied. -/
def sess1 : DeviceSession :=
  { deviceId := "1", udid := "u", serialNumber := "s", model := "m",
    osVersion := "17", buildVersion := "b", supervised := true,
    pushToken := some "T", pushMagic := some "M" }

def cmdA : Cmd := buildCommand "uA" "ProfileList" []

def cmdB : Cmd := buildCommand "uB" "SecurityInfo" []

/-- Device D authenticated, with commands A then B queued. -/
def st0 : SrvState :=
  { emptyState with
    deviceProfiles := [dev1],
    deviceSessions := [("D", sess1)],
    pendingCommands := [("D", [cmdA, cmdB])],
    mdmCommands :=
      [ { deviceId := "1", commandUUID := "uA",
          commandType := "ProfileList", status := "pending",
          command := cmdA },
        { deviceId := "1", commandUUID := "uB",
          commandType := "SecurityInfo", status := "pending",
          command := cmdB } ] }

/-- A response for command B (the non-head element of D's queue). -/
def respB : CmdResponse :=
  { commandUUID := "uB", status := "Error", requestType := "SecurityInfo",
    profileList := [],
    securityInfo := { isSupervised := false, passcodePresent := false },
    appList := [],
    restrictions :=
      { allowVPNCreation := none, allowAppInstallation := none,
        allowEraseContentAndSettings := none } }

/-- st0 after the in-memory registry was cleared (server restart). -/
def st0noSess : SrvState := { st0 with deviceSessions := [] }

/-- An enrollment ticket expiring at time 1000. -/
def enr1 : Enrollment :=
  { profileData := "PROFILE", deviceId := "D", userId := "U9",
    profileUUID := "P", expiresAt := 1000 }

/-- A state holding exactly the enrollment code CODE. -/
def stE : SrvState :=
  { emptyState with enrollmentCodes := [("CODE", enr1)] }

/-- A blocking policy whose only input is a custom-blocked crisis-line
domain. -/
def sCex : Settings :=
  { block_adult_content := false, block_gambling := false,
    block_social_media := false, block_gaming := false,
    block_news := false, block_entertainment := false,
    block_shopping := false, block_dating := false,
    custom_blocked_domains := ["crisistextline.org"],
    customAllowedDomains := [], additionalBlockedApps := [],
    allowJavaScript := none }

/-- A concrete built profile, used for the signing witness. -/
def profile0 : SupervisionProfile :=
  buildSupervisionProfile cfg0 [] "D" "U" sCex 1 true

/-- Two registered devices and nothing queued, for the FIFO witness. -/
def st5 : SrvState :=
  { emptyState with
    deviceProfiles :=
      [ dev1,
        { id := "2", profileUUID := "E", mdmEnrolled := false,
          supervisionLevel := 0 } ] }

/-- Concrete enqueue trace: D, unknown device X, E, then D again. -/
def ops5 : List EnqOp :=
  [ { deviceId := "D", commandType := "ProfileList", parameters := [],
      uuid := "u1" },
    { deviceId := "X", commandType := "DeviceLock",
      parameters := [("pin", "0000")], uuid := "uX" },
    { deviceId := "E", commandType := "SecurityInfo", parameters := [],
      uuid := "u2" },
    { deviceId := "D", commandType := "Restrictions", parameters := [],
      uuid := "u3" } ]

/-! Association-list lemmas. -/

theorem lookupMap_eraseMap {α : Type} (m : List (String × α)) (k : String) :
    lookupMap (eraseMap m k) k = none := by
  induction m with
  | nil => simp [eraseMap, lookupMap]
  | cons hd tl ih =>
      obtain ⟨k', v'⟩ := hd
      by_cases h : k' = k
      · simpa [eraseMap, h] using ih
      · simp [eraseMap, lookupMap, h, ih]

theorem lookupMap_setMap_self {α : Type} (m : List (String × α)) (k : String)
    (v : α) : lookupMap (setMap m k v) k = some v := by
  induction m with
  | nil => simp [setMap, lookupMap]
  | cons hd tl ih =>
      obtain ⟨k', v'⟩ := hd
      by_cases h : k' = k
      · simp [setMap, h, lookupMap]
      · simp [setMap, lookupMap, h, ih]

theorem lookupMap_setMap_ne {α : Type} (m : List (String × α)) (k k' : String)
    (v : α) (h : k ≠ k') : lookupMap (setMap m k v) k' = lookupMap m k' := by
  induction m with
  | nil => simp [setMap, lookupMap, h]
  | cons hd tl ih =>
      obtain ⟨k₀, v₀⟩ := hd
      by_cases h₀ : k₀ = k
      · simp [setMap, h₀, lookupMap, h]
      · simp [setMap, lookupMap, h₀, ih]

/-! Profile-builder lemmas. -/

theorem compileBlockedDomains_no_altrii (table : List (String × String))
    (settings : Settings) :
    (compileBlockedDomains table settings).all
      (fun d => !(strContains d "altriirecovery.com")) = true := by
  rw [List.all_eq_true]
  intro d hd
  simp only [compileBlockedDomains] at hd
  simpa using (List.mem_filter.mp hd).2

theorem build_contentFilters (config : MDMConfig)
    (table : List (String × String)) (deviceId profileUUID : String)
    (settings : Settings) (securityLevel : Nat) (isWebOnly : Bool) :
    (buildSupervisionProfile config table deviceId profileUUID settings
        securityLevel isWebOnly).payloadContent.filterMap
      Payload.contentFilterOf
      = [buildContentFilterPayload table deviceId settings isWebOnly] := by
  by_cases h : securityLevel ≥ 2 <;>
    simp [buildSupervisionProfile, h, Payload.contentFilterOf]

/-- C1: the claim that the built content-filter deny-list contains no
domain of the fixed always-allow set fails on the code: the subtraction
only removes domains containing the operator substring, so the
crisis-service domain crisistextline.org, custom-blocked in sCex, is in
the deny-list while also being in the always-allow baseline. -/
theorem C1_counterexample :
    "crisistextline.org" ∈
      ((buildSupervisionProfile cfg0 [] "D" "U" sCex 1
          true).payloadContent.filterMap Payload.contentFilterOf).flatMap
        (fun p => p.blacklistedURLs) ∧
    "crisistextline.org" ∈ getBaselinePermittedURLs := by
  constructor <;> decide

/-- C1 (amended): the deny-list of every built supervision profile
contains no domain that includes the operator's own service domain
string "altriirecovery.com"; domains of the emergency/crisis part of
the baseline always-allow set are not subtracted. -/
theorem C1_amended :
    ∀ (config : MDMConfig) (table : List (String × String))
      (deviceId profileUUID : String) (settings : Settings)
      (securityLevel : Nat) (isWebOnly : Bool),
      ((buildSupervisionProfile config table deviceId profileUUID settings
          securityLevel isWebOnly).payloadContent.filterMap
        Payload.contentFilterOf).all
        (fun p => p.blacklistedURLs.all
          (fun d => !(strContains d "altriirecovery.com"))) = true := by
  intro config table deviceId profileUUID settings securityLevel isWebOnly
  rw [build_contentFilters]
  simpa [buildContentFilterPayload] using
    compileBlockedDomains_no_altrii table settings

/-- C2: the claim that a code resolves successfully at most once fails
on the code.  On the concrete state stE holding the unexpired code
CODE, the first resolve succeeds and marks the enrollment row
downloaded, yet an immediate second resolve of the same code succeeds
again instead of failing. -/
theorem C2_second_resolve_succeeds :
    (getEnrollmentProfile stE 500 "CODE").1 = EnrollResult.ok "PROFILE" ∧
    lookupMap
        (getEnrollmentProfile stE 500 "CODE").2.supervisionEnrollments
        "CODE" = some "downloaded" ∧
    (getEnrollmentProfile (getEnrollmentProfile stE 500 "CODE").2 500
        "CODE").1 = EnrollResult.ok "PROFILE" := by
  refine ⟨?_, ?_, ?_⟩ <;> decide

/-- C2 (amended): successful resolution does not consume the ticket.
Every resolve of a known, unexpired code succeeds and leaves the
in-memory ticket in place, so an immediate second resolve succeeds as
well; only unknown codes and expired codes fail. -/
theorem C2_amended (st : SrvState) (code : String) (e : Enrollment)
    (now : Nat) (hfound : lookupMap st.enrollmentCodes code = some e)
    (hok : ¬ e.expiresAt < now) :
    (getEnrollmentProfile st now code).1 = EnrollResult.ok e.profileData ∧
    lookupMap ((getEnrollmentProfile st now code).2).enrollmentCodes code
      = some e ∧
    (getEnrollmentProfile (getEnrollmentProfile st now code).2 now
        code).1 = EnrollResult.ok e.profileData := by
  have hstep : ∀ s : SrvState, lookupMap s.enrollmentCodes code = some e →
      (getEnrollmentProfile s now code).1
        = EnrollResult.ok e.profileData := by
    intro s hs
    unfold getEnrollmentProfile
    rw [hs]
    simp [hok]
  have hcodes :
      ((getEnrollmentProfile st now code).2).enrollmentCodes
        = st.enrollmentCodes := by
    unfold getEnrollmentProfile
    rw [hfound]
    simp [hok, logDeviceEvent]
  have h2 :
      lookupMap ((getEnrollmentProfile st now code).2).enrollmentCodes code
        = some e := by rw [hcodes]; exact hfound
  exact ⟨hstep st hfound, h2, hstep _ h2⟩

/-- Witness for C2 (amended) at the concrete unexpired state. -/
theorem C2_amended_witness :
    (getEnrollmentProfile stE 500 "CODE").1 = EnrollResult.ok "PROFILE" :=
  (C2_amended stE "CODE" enr1 500 (by decide) (by decide)).1

/-- C6: a profile built at securityLevel 1 carries no restrictions and
no security payload; at securityLevel 3 both payloads are present and
the restrictions payload sets allowAppInstallation to false. -/
theorem C6_security_levels :
    ∀ (config : MDMConfig) (table : List (String × String))
      (deviceId profileUUID : String) (settings : Settings)
      (isWebOnly : Bool),
      (buildSupervisionProfile config table deviceId profileUUID settings 1
          isWebOnly).payloadContent.filterMap Payload.restrictionsOf = [] ∧
      (buildSupervisionProfile config table deviceId profileUUID settings 1
          isWebOnly).payloadContent.filterMap Payload.securityOf = [] ∧
      (buildSupervisionProfile config table deviceId profileUUID settings 3
          isWebOnly).payloadContent.filterMap Payload.restrictionsOf
        = [buildRestrictionsPayload deviceId settings 3] ∧
      (buildRestrictionsPayload deviceId settings 3).allowAppInstallation
        = some false ∧
      (buildSupervisionProfile config table deviceId profileUUID settings 3
          isWebOnly).payloadContent.filterMap Payload.securityOf
        = [buildSecurityPayload deviceId 3] := by
  intro config table deviceId profileUUID settings isWebOnly
  refine ⟨?_, ?_, ?_, ?_, ?_⟩ <;>
    simp [buildSupervisionProfile, buildRestrictionsPayload,
      Payload.restrictionsOf, Payload.securityOf]

/-- C7: resolving a code after its expiry returns Expired and evicts
the ticket, so any second resolve of the same code fails with
InvalidCode. -/
theorem C7_expired_resolve (st : SrvState) (code : String)
    (e : Enrollment) (now now2 : Nat)
    (hfound : lookupMap st.enrollmentCodes code = some e)
    (hexp : e.expiresAt < now) :
    (getEnrollmentProfile st now code).1 = EnrollResult.expired ∧
    lookupMap ((getEnrollmentProfile st now code).2).enrollmentCodes code
      = none ∧
    (getEnrollmentProfile (getEnrollmentProfile st now code).2 now2
        code).1 = EnrollResult.invalidCode := by
  have h1 : getEnrollmentProfile st now code
      = (EnrollResult.expired,
          { st with enrollmentCodes := eraseMap st.enrollmentCodes code }) := by
    unfold getEnrollmentProfile
    rw [hfound]
    simp [hexp]
  refine ⟨by rw [h1], ?_, ?_⟩
  · rw [h1]
    exact lookupMap_eraseMap _ _
  · rw [h1]
    unfold getEnrollmentProfile
    rw [lookupMap_eraseMap]

/-- Witness for C7 at the concrete expired state. -/
theorem C7_expired_resolve_witness :
    (getEnrollmentProfile stE 2000 "CODE").1 = EnrollResult.expired ∧
    lookupMap ((getEnrollmentProfile stE 2000 "CODE").2).enrollmentCodes
      "CODE" = none ∧
    (getEnrollmentProfile (getEnrollmentProfile stE 2000 "CODE").2 800
        "CODE").1 = EnrollResult.invalidCode :=
  C7_expired_resolve stE "CODE" enr1 2000 800 (by decide) (by decide)

/-- C8: CheckOut is idempotent — every CheckOut succeeds (also on an
already-absent session), and after two consecutive CheckOut messages
for a device no session exists for it. -/
theorem C8_checkout_idempotent (st : SrvState) (deviceId : String) :
    (handleCheckOut st deviceId).1 = 200 ∧
    (handleCheckOut (handleCheckOut st deviceId).2 deviceId).1 = 200 ∧
    lookupMap
        ((handleCheckOut (handleCheckOut st deviceId).2
          deviceId).2).deviceSessions deviceId = none := by
  cases h : lookupMap st.deviceSessions deviceId with
  | none => simp [handleCheckOut, h]
  | some session =>
      simp [handleCheckOut, h, logDeviceEvent, lookupMap_eraseMap]

/-- C9: when no signing certificate or no signing key is configured,
signProfile returns the unsigned serialized document instead of
failing. -/
theorem C9_unsigned_fallback (config : MDMConfig)
    (profile : SupervisionProfile)
    (h : config.signingCertificate = none ∨ config.signingKey = none) :
    signProfile config profile
      = SignedOutput.unsigned (plistBuild profile) := by
  unfold signProfile
  rcases h with h | h
  · rw [h]
  · rw [h]
    cases config.signingCertificate <;> rfl

/-- Witness for C9 at a concrete unsigned configuration and profile. -/
theorem C9_unsigned_fallback_witness :
    signProfile cfg0 profile0
      = SignedOutput.unsigned (plistBuild profile0) :=
  C9_unsigned_fallback cfg0 profile0 (Or.inl (by decide))

/-- C10: with no in-memory session for the device, a command response
is dropped before any durable update — the whole state (command
records, queue, events) is unchanged — while the handler still returns
the device's next pending command. -/
theorem C10_response_dropped_without_session (st : SrvState)
    (deviceId : String) (response : CmdResponse)
    (h : lookupMap st.deviceSessions deviceId = none) :
    handleCommand st deviceId response = (getNextCommand st deviceId, st) := by
  have hp : processCommandResponse st deviceId response = st := by
    unfold processCommandResponse
    rw [h]
  unfold handleCommand
  rw [hp]

/-- Witness for C10: on the restart-cleared state the response for B
is dropped whole (st0noSess is returned unchanged) yet command A is
still served. -/
theorem C10_response_dropped_witness :
    handleCommand st0noSess "D" respB = (some cmdA, st0noSess) := by
  rw [C10_response_dropped_without_session st0noSess "D" respB (by decide)]
  decide

/-! Preservation lemmas: reconciliation touches neither the command
queue, nor the command records, nor the push log. -/

theorem ite_logDeviceEvent_fields (c : Prop) [Decidable c] (s : SrvState)
    (i t : String) :
    (if c then logDeviceEvent s i t else s).pendingCommands
      = s.pendingCommands ∧
    (if c then logDeviceEvent s i t else s).mdmCommands = s.mdmCommands ∧
    (if c then logDeviceEvent s i t else s).pushLog = s.pushLog := by
  by_cases h : c <;> simp [h, logDeviceEvent]

theorem processProfileList_preserves (st : SrvState) (i : String)
    (ps : List String) :
    (processProfileList st i ps).pendingCommands = st.pendingCommands ∧
    (processProfileList st i ps).mdmCommands = st.mdmCommands ∧
    (processProfileList st i ps).pushLog = st.pushLog := by
  refine ⟨?_, ?_, ?_⟩ <;> (unfold processProfileList; split <;> rfl)

theorem processSecurityInfo_preserves (st : SrvState) (i : String)
    (si : SecInfo) :
    (processSecurityInfo st i si).pendingCommands = st.pendingCommands ∧
    (processSecurityInfo st i si).mdmCommands = st.mdmCommands ∧
    (processSecurityInfo st i si).pushLog = st.pushLog :=
  ⟨rfl, rfl, rfl⟩

theorem processAppList_preserves (st : SrvState) (i : String)
    (apps : List AppInfo) :
    (processAppList st i apps).pendingCommands = st.pendingCommands ∧
    (processAppList st i apps).mdmCommands = st.mdmCommands ∧
    (processAppList st i apps).pushLog = st.pushLog := by
  refine ⟨?_, ?_, ?_⟩ <;> (unfold processAppList; dsimp only; split <;> rfl)

theorem processRestrictions_preserves (st : SrvState) (i : String)
    (r : RestrictionsReport) :
    (processRestrictions st i r).pendingCommands = st.pendingCommands ∧
    (processRestrictions st i r).mdmCommands = st.mdmCommands ∧
    (processRestrictions st i r).pushLog = st.pushLog := by
  unfold processRestrictions
  dsimp only
  split
  · exact ⟨rfl, rfl, rfl⟩
  · exact ⟨(ite_logDeviceEvent_fields _ _ _ _).1,
      (ite_logDeviceEvent_fields _ _ _ _).2.1,
      (ite_logDeviceEvent_fields _ _ _ _).2.2⟩

theorem runReconciliation_preserves (st : SrvState) (i : String)
    (resp : CmdResponse) :
    (runReconciliation st i resp).pendingCommands = st.pendingCommands ∧
    (runReconciliation st i resp).mdmCommands = st.mdmCommands ∧
    (runReconciliation st i resp).pushLog = st.pushLog := by
  unfold runReconciliation
  split
  · split
    · exact processProfileList_preserves _ _ _
    · exact processSecurityInfo_preserves _ _ _
    · exact processAppList_preserves _ _ _
    · exact processRestrictions_preserves _ _ _
    · exact ⟨rfl, rfl, rfl⟩
  · exact ⟨rfl, rfl, rfl⟩

/-- C3: the claim fails on the code — on st0 the response for uB does
not match the head uA of D's queue, yet the handler does not fail:
it mutates both the queue (uB is removed from the middle) and the
command record for uB (marked failed), and still serves the next
command. -/
theorem C3_counterexample :
    getNextCommand st0 "D" = some cmdA ∧
    respB.commandUUID ≠ cmdA.commandUUID ∧
    (lookupMap (processCommandResponse st0 "D" respB).pendingCommands
        "D").getD [] ≠ (lookupMap st0.pendingCommands "D").getD [] ∧
    (processCommandResponse st0 "D" respB).mdmCommands
      ≠ st0.mdmCommands ∧
    (handleCommand st0 "D" respB).1 = some cmdA := by
  refine ⟨?_, ?_, ?_, ?_, ?_⟩ <;> decide

/-- C3 (amended): the handler never rejects a response by command id.
With a session present, every command record carrying the reported
uuid (head of the queue or not) is marked completed/failed, and every
queued command with that uuid is removed from the device's queue; an
id matching nothing leaves both untouched, without any UnknownCommand
error. -/
theorem C3_amended (st : SrvState) (deviceId : String)
    (response : CmdResponse) (session : DeviceSession)
    (h : lookupMap st.deviceSessions deviceId = some session) :
    (lookupMap (processCommandResponse st deviceId
        response).pendingCommands deviceId).getD []
      = ((lookupMap st.pendingCommands deviceId).getD []).filter
          (fun cmd => !(cmd.commandUUID == response.commandUUID)) ∧
    (processCommandResponse st deviceId response).mdmCommands
      = st.mdmCommands.map
          (fun c =>
            if c.commandUUID == response.commandUUID then
              { c with
                status := if response.status == "Acknowledged"
                  then "completed" else "failed",
                responseData := some response.status }
            else c) := by
  simp only [processCommandResponse, h]
  constructor
  · rw [lookupMap_setMap_self, Option.getD_some,
      (runReconciliation_preserves _ _ _).1]
    rfl
  · rw [(runReconciliation_preserves _ _ _).2.1]
    rfl

/-- Witness for C3 (amended) at the concrete state st0 and the
non-head response respB. -/
theorem C3_amended_witness :
    (lookupMap (processCommandResponse st0 "D" respB).pendingCommands
        "D").getD [] = [cmdA] := by
  rw [(C3_amended st0 "D" respB sess1 (by decide)).1]
  decide

/-! Push-dispatch lemmas for the wake-channel analysis. -/

theorem sendPushNotification_pushLog (config : MDMConfig) (s : SrvState)
    (d tok : String) (mag : Option String) :
    ∃ l, (sendPushNotification config s d tok mag).pushLog
        = s.pushLog ++ l ∧ l.length ≤ 1 := by
  unfold sendPushNotification
  split
  · exact ⟨[(d, tok, mag)], rfl, by simp⟩
  · exact ⟨[], by simp, by simp⟩

theorem ite_sendPushNotification_pushLog (c : Prop) [Decidable c]
    (config : MDMConfig) (s : SrvState) (d tok : String)
    (mag : Option String) :
    ∃ l, (if c then sendPushNotification config s d tok mag
          else s).pushLog = s.pushLog ++ l ∧ l.length ≤ 1 := by
  by_cases h : c
  · simpa [h] using sendPushNotification_pushLog config s d tok mag
  · exact ⟨[], by simp [h], by simp⟩

theorem wakeIfPossible_pushLog (config : MDMConfig) (s : SrvState)
    (d : String) :
    ∃ l, (wakeIfPossible config s d).pushLog = s.pushLog ++ l ∧
      l.length ≤ 1 := by
  unfold wakeIfPossible
  split
  · split
    · exact sendPushNotification_pushLog _ _ _ _ _
    · exact ⟨[], by simp, by simp⟩
  · exact ⟨[], by simp, by simp⟩

/-- C4: the claim that only the TokenUpdate handler triggers push
delivery fails on the code: on st0 (session with a push token, APNS
configured) both the operator sendCommand endpoint and the
verifyDevice endpoint hand a wake notification to the push provider. -/
theorem C4_counterexample :
    (sendCommand cfg0 st0 "D" "DeviceLock" [("pin", "1234")]
        "uC").2.pushLog = [("D", "T", some "M")] ∧
    (verifyDevice cfg0 st0 "D" "v1" "v2" "v3" "v4").2.pushLog
      = [("D", "T", some "M")] ∧
    st0.pushLog = [] := by
  refine ⟨?_, ?_, ?_⟩ <;> decide

/-- C4 (amended): push notifications are dispatched from exactly three
operations — TokenUpdate handling, sendCommand and verifyDevice (each
appending at most one notification) — while Authenticate, CheckOut,
command-response handling and enrollment download never touch the push
channel. -/
theorem C4_amended :
    ∀ (config : MDMConfig) (st : SrvState) (deviceId : String)
      (a : AuthData) (resp : CmdResponse) (now : Nat)
      (code commandType : String) (parameters : List (String × String))
      (uuid u1 u2 u3 u4 : String) (tu : TokenUpdateData),
      (handleAuthenticate st deviceId a).2.pushLog = st.pushLog ∧
      (handleCheckOut st deviceId).2.pushLog = st.pushLog ∧
      (handleCommand st deviceId resp).2.pushLog = st.pushLog ∧
      (getEnrollmentProfile st now code).2.pushLog = st.pushLog ∧
      (∃ l, (handleTokenUpdate config st deviceId tu).2.pushLog
          = st.pushLog ++ l ∧ l.length ≤ 1) ∧
      (∃ l, (sendCommand config st deviceId commandType parameters
            uuid).2.pushLog = st.pushLog ++ l ∧ l.length ≤ 1) ∧
      (∃ l, (verifyDevice config st deviceId u1 u2 u3 u4).2.pushLog
          = st.pushLog ++ l ∧ l.length ≤ 1) := by
  intro config st deviceId a resp now code commandType parameters uuid
    u1 u2 u3 u4 tu
  refine ⟨?_, ?_, ?_, ?_, ?_, ?_, ?_⟩
  · unfold handleAuthenticate
    split <;> rfl
  · unfold handleCheckOut
    split <;> rfl
  · unfold handleCommand processCommandResponse
    dsimp only
    split
    · rfl
    · rw [(runReconciliation_preserves _ _ _).2.2]
      rfl
  · unfold getEnrollmentProfile
    split
    · rfl
    · split <;> rfl
  · unfold handleTokenUpdate
    split
    · exact ⟨[], by simp⟩
    · exact ite_sendPushNotification_pushLog _ _ _ _ _ _
  · unfold sendCommand
    dsimp only
    split
    · exact ⟨[], by simp⟩
    · exact wakeIfPossible_pushLog _ _ _
  · unfold verifyDevice
    dsimp only
    split
    · exact ⟨[], by simp⟩
    · exact wakeIfPossible_pushLog _ _ _

/-! Command-queue lemmas for the FIFO property. -/

theorem sendPushNotification_fields (config : MDMConfig) (s : SrvState)
    (d tok : String) (mag : Option String) :
    (sendPushNotification config s d tok mag).deviceProfiles
      = s.deviceProfiles ∧
    (sendPushNotification config s d tok mag).pendingCommands
      = s.pendingCommands ∧
    (sendPushNotification config s d tok mag).mdmCommands
      = s.mdmCommands := by
  unfold sendPushNotification
  split <;> exact ⟨rfl, rfl, rfl⟩

theorem wakeIfPossible_fields (config : MDMConfig) (s : SrvState)
    (d : String) :
    (wakeIfPossible config s d).deviceProfiles = s.deviceProfiles ∧
    (wakeIfPossible config s d).pendingCommands = s.pendingCommands ∧
    (wakeIfPossible config s d).mdmCommands = s.mdmCommands := by
  unfold wakeIfPossible
  split
  · split
    · exact sendPushNotification_fields _ _ _ _ _
    · exact ⟨rfl, rfl, rfl⟩
  · exact ⟨rfl, rfl, rfl⟩

theorem sendCommand_notFound (config : MDMConfig) (st : SrvState)
    (deviceId commandType : String) (parameters : List (String × String))
    (uuid : String) (h : findDevice st deviceId = none) :
    (sendCommand config st deviceId commandType parameters uuid).2 = st := by
  unfold sendCommand
  rw [h]

theorem sendCommand_found (config : MDMConfig) (st : SrvState)
    (deviceId commandType : String) (parameters : List (String × String))
    (uuid : String) (dev : DeviceProfileRow)
    (h : findDevice st deviceId = some dev) :
    (sendCommand config st deviceId commandType parameters
        uuid).2.deviceProfiles = st.deviceProfiles ∧
    (∀ d',
      (lookupMap (sendCommand config st deviceId commandType parameters
          uuid).2.pendingCommands d').getD []
        = (lookupMap st.pendingCommands d').getD [] ++
          (if deviceId = d' then
            [buildCommand uuid commandType parameters]
          else [])) ∧
    (sendCommand config st deviceId commandType parameters
        uuid).2.mdmCommands
      = st.mdmCommands ++
        [{ deviceId := dev.id, commandUUID := uuid,
           commandType := commandType, status := "pending",
           command := buildCommand uuid commandType parameters }] := by
  simp only [sendCommand, h]
  refine ⟨?_, ?_, ?_⟩
  · rw [(wakeIfPossible_fields _ _ _).1]
  · intro d'
    rw [(wakeIfPossible_fields _ _ _).2.1]
    by_cases hd : deviceId = d'
    · subst hd
      rw [lookupMap_setMap_self]
      simp
    · rw [lookupMap_setMap_ne _ _ _ _ hd]
      simp [hd]
  · rw [(wakeIfPossible_fields _ _ _).2.2]
    rfl

theorem runSendCommands_spec (config : MDMConfig) (ops : List EnqOp) :
    ∀ st : SrvState,
      (runSendCommands config st ops).deviceProfiles
        = st.deviceProfiles ∧
      (∀ d,
        (lookupMap (runSendCommands config st ops).pendingCommands
            d).getD []
          = (lookupMap st.pendingCommands d).getD [] ++
            enqueuedFor st.deviceProfiles ops d) ∧
      (∀ iid,
        ((runSendCommands config st ops).mdmCommands.filter
            (fun c => c.deviceId == iid && c.status == "pending")).map
          (fun c => c.command)
          = ((st.mdmCommands.filter
              (fun c => c.deviceId == iid && c.status == "pending")).map
            (fun c => c.command)) ++
            dbEnqueuedFor st.deviceProfiles ops iid) := by
  induction ops with
  | nil =>
      intro st
      refine ⟨rfl, ?_, ?_⟩ <;> intro k <;>
        simp [runSendCommands, enqueuedFor, dbEnqueuedFor]
  | cons op rest ih =>
      intro st
      rw [runSendCommands]
      cases hf : findDevice st op.deviceId with
      | none =>
          rw [sendCommand_notFound config st op.deviceId op.commandType
            op.parameters op.uuid hf]
          obtain ⟨ih1, ih2, ih3⟩ := ih st
          refine ⟨ih1, ?_, ?_⟩
          · intro d
            rw [ih2 d]
            congr 1
            unfold enqueuedFor findDevice at *
            simp [hf]
          · intro iid
            rw [ih3 iid]
            congr 1
            unfold dbEnqueuedFor findDevice at *
            simp [hf]
      | some dev =>
          obtain ⟨h1, h2, h3⟩ := sendCommand_found config st op.deviceId
            op.commandType op.parameters op.uuid dev hf
          obtain ⟨ih1, ih2, ih3⟩ :=
            ih (sendCommand config st op.deviceId op.commandType
              op.parameters op.uuid).2
          refine ⟨?_, ?_, ?_⟩
          · rw [ih1, h1]
          · intro d
            rw [ih2 d, h2 d, h1, List.append_assoc]
            congr 1
            unfold enqueuedFor findDevice at *
            by_cases hd : op.deviceId = d
            · subst hd
              simp [List.filter_cons, hf]
            · simp [List.filter_cons, hf, hd]
          · intro iid
            rw [ih3 iid, h3, h1, List.filter_append, List.map_append,
              List.append_assoc]
            congr 1
            unfold dbEnqueuedFor findDevice at *
            by_cases hid : dev.id = iid
            · simp [List.filter_cons, hf, hid]
            · simp [List.filter_cons, hf, hid]

theorem dbEnqueuedFor_eq_nil (profiles : List DeviceProfileRow)
    (ops : List EnqOp) (d : String) (dev : DeviceProfileRow)
    (hfd : profiles.find? (fun r => r.profileUUID == d) = some dev)
    (hinj : ∀ p ∈ profiles, ∀ q ∈ profiles,
      p.id = q.id → p.profileUUID = q.profileUUID)
    (henq : enqueuedFor profiles ops d = []) :
    dbEnqueuedFor profiles ops dev.id = [] := by
  unfold enqueuedFor at henq
  unfold dbEnqueuedFor
  rw [List.map_eq_nil_iff, List.filter_eq_nil_iff] at henq
  rw [List.map_eq_nil_iff, List.filter_eq_nil_iff]
  intro o ho hmatch
  cases hq : profiles.find? (fun r => r.profileUUID == o.deviceId) with
  | none => rw [hq] at hmatch; simp at hmatch
  | some q =>
      rw [hq] at hmatch
      dsimp only at hmatch
      have hqid : q.id = dev.id := by simpa using hmatch
      have hqmem := List.mem_of_find?_eq_some hq
      have hdmem := List.mem_of_find?_eq_some hfd
      have hquuid : q.profileUUID = o.deviceId := by
        simpa using List.find?_some hq
      have hduuid : dev.profileUUID = d := by
        simpa using List.find?_some hfd
      have huuid : q.profileUUID = dev.profileUUID :=
        hinj q hqmem dev hdmem hqid
      have hod : o.deviceId = d := by rw [← hquuid, huuid, hduuid]
      refine henq o ho ?_
      simp only [hod, beq_self_eq_true, Bool.true_and]
      simp
      exact ⟨dev, hdmem, hduuid⟩

/-- C5: replaying any sequence of operator enqueues from a state with
empty queues, getPendingCommands returns exactly the commands enqueued
for that device, in enqueue order, and getNextCommand returns the
first of them — FIFO per device, never another device's command
(given that distinct device identifiers do not share an internal
record id). -/
theorem C5_fifo_isolation (config : MDMConfig) (st : SrvState)
    (ops : List EnqOp) (deviceId : String)
    (hpend : st.pendingCommands = []) (hcmds : st.mdmCommands = [])
    (hinj : ∀ p ∈ st.deviceProfiles, ∀ q ∈ st.deviceProfiles,
      p.id = q.id → p.profileUUID = q.profileUUID) :
    getPendingCommands (runSendCommands config st ops) deviceId
      = enqueuedFor st.deviceProfiles ops deviceId ∧
    getNextCommand (runSendCommands config st ops) deviceId
      = (enqueuedFor st.deviceProfiles ops deviceId).head? := by
  obtain ⟨hdp, hpc, hmc⟩ := runSendCommands_spec config ops st
  have hmem :
      (lookupMap (runSendCommands config st ops).pendingCommands
        deviceId).getD [] = enqueuedFor st.deviceProfiles ops deviceId := by
    rw [hpc deviceId, hpend]
    simp [lookupMap]
  have hmain :
      getPendingCommands (runSendCommands config st ops) deviceId
        = enqueuedFor st.deviceProfiles ops deviceId := by
    unfold getPendingCommands
    rw [hmem]
    by_cases hne : enqueuedFor st.deviceProfiles ops deviceId = []
    · rw [hne]
      simp only [List.length_nil, gt_iff_lt, Nat.lt_irrefl, if_false]
      unfold findDevice
      rw [hdp]
      cases hfd :
          st.deviceProfiles.find? (fun r => r.profileUUID == deviceId) with
      | none => rfl
      | some dev =>
          dsimp only
          rw [hmc dev.id, hcmds]
          simp only [List.filter_nil, List.map_nil, List.nil_append]
          exact dbEnqueuedFor_eq_nil st.deviceProfiles ops deviceId dev
            hfd hinj hne
    · rw [if_pos (by simpa [gt_iff_lt, List.length_pos] using hne)]
  refine ⟨hmain, ?_⟩
  unfold getNextCommand
  rw [hmain]

/-- Witness for C5 at a concrete two-device state and a four-call
trace (two for D, one for E, one for an unknown device). -/
theorem C5_fifo_isolation_witness :
    getPendingCommands (runSendCommands cfg0 st5 ops5) "D"
      = [buildCommand "u1" "ProfileList" [],
         buildCommand "u3" "Restrictions" []] := by
  rw [(C5_fifo_isolation cfg0 st5 ops5 "D" (by decide) (by decide)
    (by decide)).1]
  decide

end Altrii
